import Mathlib

/-!
Shallow embedding of `src/layout.py`: a Dash dashboard over a hotel-booking
dataset.  Data frames are modelled as lists of records / lists of string
cells; the pandas, base64 and UTF-8 library calls the script makes are
modelled from their documented behaviour on the inputs this code supplies.
-/

/-- A calendar date: the model of the `arrival_date` column
(`datetime64` in layout.py line 20). -/
structure Date where
  year : Nat
  month : Nat
  day : Nat
deriving DecidableEq

/-- A row of the startup dataset `hotel_booking_clean.csv`, restricted to
the columns the dashboard reads.  `is_canceled` is the 0/1 column the
source compares with `0` (layout.py line 27); `adr` is modelled as a
rational number. -/
structure BookingRecord where
  hotel : String
  is_canceled : Nat
  arrival_date : Date
  adr : ℚ
deriving DecidableEq

/-- layout.py line 25: the fixed calendar-month ordering. -/
def month : List String :=
  ["January", "February", "March", "April", "May", "June", "July", "August",
   "September", "October", "November", "December"]

/-- `arrival_date.dt.month_name()` (layout.py line 23). -/
def month_name (d : Date) : String := month.getD (d.month - 1) ""

/-- layout.py line 27: `data[data['is_canceled'] == 0]`. -/
def no_canceled (data : List BookingRecord) : List BookingRecord :=
  data.filter (fun r => r.is_canceled == 0)

/-- layout.py line 29: `no_canceled[['hotel', 'arrival_date']]`, the
FilteredBookings view. -/
def df (data : List BookingRecord) : List (String × Date) :=
  (no_canceled data).map (fun r => (r.hotel, r.arrival_date))

/-- The sorted list of distinct values of a column: the index/column labels
pandas `crosstab` produces. -/
def sortedUnique (l : List String) : List String :=
  List.insertionSort (fun a b => a ≤ b) l.dedup

/-- One cell of the crosstab: how many of `rows` fall in month `m` and
hotel `h`. -/
def crosstabCount (rows : List BookingRecord) (m h : String) : Nat :=
  rows.countP (fun r => month_name r.arrival_date == m && r.hotel == h)

/-- `pd.crosstab(index=no_canceled['arrival_month'], columns=no_canceled['hotel'])`
(layout.py lines 32-33): rows are the sorted distinct month names present,
columns the sorted distinct hotels present, cells the co-occurrence counts. -/
def crosstab (rows : List BookingRecord) : List (String × List (String × Nat)) :=
  (sortedUnique (rows.map (fun r => month_name r.arrival_date))).map (fun m =>
    (m, (sortedUnique (rows.map (fun r => r.hotel))).map (fun h =>
      (h, crosstabCount rows m h))))

/-- `DataFrame.reindex` row lookup: the row of `tab` labelled `m`,
`none` (a NaN row) when `m` is absent from the original index. -/
def reindexRow (tab : List (String × List (String × Nat))) (m : String) :
    Option (List (String × Nat)) :=
  (tab.find? (fun row => row.1 == m)).map (fun row => row.2)

/-- layout.py lines 32-35: the crosstab of the non-canceled records,
reindexed by the fixed month list. -/
def final_rush (data : List BookingRecord) :
    List (String × Option (List (String × Nat))) :=
  month.map (fun m => (m, reindexRow (crosstab (no_canceled data)) m))

/-- The categories of the `hotel` column: `astype('category')` (layout.py
line 21) takes the sorted distinct values of the full dataset. -/
def hotelCategories (data : List BookingRecord) : List String :=
  sortedUnique (data.map (fun r => r.hotel))

/-- The (arrival_month, hotel) keys of `groupby(['arrival_month', 'hotel'])`
at layout.py line 39 under pandas 1.x: `hotel` is categorical and the
default is `observed=False`, so the result index is the product of the
observed month values (sorted) with ALL hotel categories — pairs no record
has are kept, their aggregate being NaN. -/
def groupKeys (data : List BookingRecord) : List (String × String) :=
  ((sortedUnique (data.map (fun r => month_name r.arrival_date))).map (fun m =>
    (hotelCategories data).map (fun h => (m, h)))).flatten

/-- All `adr` values of the (m, h) group, over the full dataset. -/
def groupAdrs (data : List BookingRecord) (m h : String) : List ℚ :=
  (data.filter (fun r => month_name r.arrival_date == m && r.hotel == h)).map
    (fun r => r.adr)

def mean (l : List ℚ) : ℚ := l.sum / (l.length : ℚ)

/-- numpy/pandas rounding: round half to even. -/
def roundHalfEven (q : ℚ) : ℤ :=
  if q - ⌊q⌋ < 1/2 then ⌊q⌋
  else if 1/2 < q - ⌊q⌋ then ⌊q⌋ + 1
  else if ⌊q⌋ % 2 = 0 then ⌊q⌋ else ⌊q⌋ + 1

/-- `.round(2)`: round to 2 decimal places. -/
def round2 (q : ℚ) : ℚ := (roundHalfEven (q * 100) : ℚ) / 100

/-- A row of the `adr_month_hotel` frame after `reset_index()`.  `adr` is
`none` for the NaN an empty (unobserved) group produces. -/
structure AdrRow where
  arrival_month : String
  hotel : String
  adr : Option ℚ
deriving DecidableEq

/-- The categorical code of a month name: its position in `month`
(12, i.e. past the end, for a label outside the categories). -/
def monthCode (m : String) : Nat := month.indexOf m

/-- `sort_values('arrival_month')` comparison after line 40 made the column
categorical over `month`. -/
def adrRowLe (a b : AdrRow) : Prop :=
  monthCode a.arrival_month ≤ monthCode b.arrival_month

instance : DecidableRel adrRowLe := fun a b =>
  inferInstanceAs (Decidable (monthCode a.arrival_month ≤ monthCode b.arrival_month))

instance : IsTotal AdrRow adrRowLe :=
  ⟨fun a b => Nat.le_total (monthCode a.arrival_month) (monthCode b.arrival_month)⟩

instance : IsTrans AdrRow adrRowLe :=
  ⟨fun _ _ _ hab hbc => Nat.le_trans hab hbc⟩

/-- layout.py lines 39-41: group the full dataset by (arrival_month, hotel)
— with the `observed=False` product index of `groupKeys` — take the mean
`adr` rounded to 2 decimals (NaN for an empty group: `.round(2)` keeps
NaN), then sort by the categorical month order. -/
def adr_month_hotel (data : List BookingRecord) : List AdrRow :=
  List.insertionSort adrRowLe
    ((groupKeys data).map (fun p =>
      ⟨p.1, p.2,
        if groupAdrs data p.1 p.2 = [] then none
        else some (round2 (mean (groupAdrs data p.1 p.2)))⟩))

/-! ## Python-level values and errors for the interaction handlers -/

/-- The Python exceptions that can escape a handler in this script. -/
inductive PyError where
  | valueError
  | binasciiError
  | typeError
  | unboundLocalError
  | keyError
deriving DecidableEq

/-- An in-memory table: the model of a pandas `DataFrame` produced by a
parser.  Cells are kept as strings. -/
structure DataFrame where
  cols : List String
  rows : List (List String)
deriving DecidableEq

/-- `str.split(sep)` for a one-character separator, Python semantics:
splitting the empty string gives `[""]`, and `n` separators give `n+1`
(possibly empty) parts. -/
def splitOnChar (sep : Char) : List Char → List (List Char)
  | [] => [[]]
  | c :: rest =>
    match splitOnChar sep rest with
    | [] => [[]]
    | g :: gs => if c == sep then [] :: g :: gs else (c :: g) :: gs

/-- Does `hay` start with `needle`? -/
def startsWithList : List Char → List Char → Bool
  | [], _ => true
  | _ :: _, [] => false
  | n :: ns, h :: hs => n == h && startsWithList ns hs

/-- Python's `needle in hay` on strings: substring containment. -/
def containsSub (needle : List Char) : List Char → Bool
  | [] => startsWithList needle []
  | c :: hs => startsWithList needle (c :: hs) || containsSub needle (hs)

/-- `content_type, content_string = contents.split(',')` (layout.py
line 153): a `ValueError` escapes unless the split has exactly two parts. -/
def pySplit2 (s : String) : Except PyError (String × String) :=
  match (splitOnChar ',' s.data).map (fun l => String.mk l) with
  | [a, b] => .ok (a, b)
  | _ => .error .valueError

/-- The value of a base64-alphabet character. -/
def b64Index (c : Char) : Option Nat :=
  if 'A' ≤ c ∧ c ≤ 'Z' then some (c.toNat - 65)
  else if 'a' ≤ c ∧ c ≤ 'z' then some (c.toNat - 97 + 26)
  else if '0' ≤ c ∧ c ≤ '9' then some (c.toNat - 48 + 52)
  else if c = '+' then some 62
  else if c = '/' then some 63
  else none

/-- Decode base64 digit values (each < 64) in groups of four into bytes; a
final group of one digit is a padding error. -/
def decodeGroups : List Nat → Except PyError (List Nat)
  | [] => .ok []
  | [_] => .error .binasciiError
  | [a, b] => .ok [a * 4 + b / 16]
  | [a, b, c] => .ok [a * 4 + b / 16, b % 16 * 16 + c / 4]
  | a :: b :: c :: d :: rest =>
    match decodeGroups rest with
    | .error e => .error e
    | .ok tail =>
      .ok ((a * 4 + b / 16) :: (b % 16 * 16 + c / 4) :: (c % 4 * 64 + d) :: tail)

/-- Python `base64.b64decode` with `validate=False` (layout.py line 155):
characters outside the alphabet are discarded, the remaining length must be
a multiple of 4 (otherwise `binascii.Error`, raised outside the `try`
block), digits before the first `=` padding decode 4-to-3 into bytes. -/
def b64decode (s : List Char) : Except PyError (List Nat) :=
  let cleaned := s.filter (fun c => (b64Index c).isSome || c == '=')
  if cleaned.length % 4 == 0 then
    decodeGroups ((cleaned.takeWhile (fun c => c != '=')).filterMap b64Index)
  else .error .binasciiError

/-- `bytes.decode('utf-8')`: UTF-8 decoding; `Except.error` is Python's
`UnicodeDecodeError` (raised inside the `try` block of `parse_contents`). -/
def utf8Decode : List Nat → Except String (List Char)
  | [] => .ok []
  | b :: rest =>
    if b < 128 then
      match utf8Decode rest with
      | .ok cs => .ok (Char.ofNat b :: cs)
      | .error e => .error e
    else if 194 ≤ b && b ≤ 223 then
      match rest with
      | b2 :: rest2 =>
        if 128 ≤ b2 && b2 ≤ 191 then
          match utf8Decode rest2 with
          | .ok cs => .ok (Char.ofNat ((b - 192) * 64 + (b2 - 128)) :: cs)
          | .error e => .error e
        else .error "invalid continuation byte"
      | [] => .error "unexpected end of data"
    else if 224 ≤ b && b ≤ 239 then
      match rest with
      | b2 :: b3 :: rest3 =>
        if (if b == 224 then 160 ≤ b2 && b2 ≤ 191
            else if b == 237 then 128 ≤ b2 && b2 ≤ 159
            else 128 ≤ b2 && b2 ≤ 191) && (128 ≤ b3 && b3 ≤ 191) then
          match utf8Decode rest3 with
          | .ok cs =>
            .ok (Char.ofNat ((b - 224) * 4096 + (b2 - 128) * 64 + (b3 - 128)) :: cs)
          | .error e => .error e
        else .error "invalid continuation byte"
      | _ => .error "unexpected end of data"
    else if 240 ≤ b && b ≤ 244 then
      match rest with
      | b2 :: b3 :: b4 :: rest4 =>
        if (if b == 240 then 144 ≤ b2 && b2 ≤ 191
            else if b == 244 then 128 ≤ b2 && b2 ≤ 143
            else 128 ≤ b2 && b2 ≤ 191)
            && (128 ≤ b3 && b3 ≤ 191) && (128 ≤ b4 && b4 ≤ 191) then
          match utf8Decode rest4 with
          | .ok cs =>
            .ok (Char.ofNat ((b - 240) * 262144 + (b2 - 128) * 4096
              + (b3 - 128) * 64 + (b4 - 128)) :: cs)
          | .error e => .error e
        else .error "invalid continuation byte"
      | _ => .error "unexpected end of data"
    else .error "invalid start byte"

/-- `pd.read_csv` on in-memory text, modelled for the comma-separated,
quote-free tables this app produces and consumes: blank lines are skipped
(pandas `skip_blank_lines` default), empty header cells are renamed
`Unnamed: i`, an input with no non-blank lines is an `EmptyDataError`, and
a data row whose field count differs from the header is a tokenizer error
(pandas would NaN-fill a short row, a case nothing in the app exercises). -/
def read_csv_chars (text : List Char) : Except String DataFrame :=
  match (splitOnChar '\n' text).filter (fun l => l != []) with
  | [] => .error "EmptyDataError"
  | header :: dataLines =>
    let cols := ((splitOnChar ',' header).map (fun c => String.mk c)).enum.map
      (fun p => if p.2 == "" then "Unnamed: " ++ toString p.1 else p.2)
    let rows := dataLines.map (fun l => (splitOnChar ',' l).map (fun c => String.mk c))
    if rows.all (fun r => r.length == cols.length) then .ok ⟨cols, rows⟩
    else .error "tokenizer error"

/-- What `parse_contents` renders: either the inline parse-failure message
(`'There was an error processing this file.'`, layout.py lines 166-168) or
the successful preview `Div` (lines 170-187). -/
inductive UploadRender where
  | errorDiv
  | preview (filename : String) (date : Nat) (table : DataFrame) (raw : String)
deriving DecidableEq

/-- The body of the `try` block of `parse_contents` (layout.py lines
156-163): which parser runs is decided by substring containment on the
filename; when neither substring matches, no branch runs and the local `df`
stays unbound (`.ok none`).  `readExcel` abstracts `pd.read_excel`. -/
def parseBranch (readExcel : List Nat → Except String DataFrame)
    (filename : String) (decoded : List Nat) : Except String (Option DataFrame) :=
  if containsSub "csv".data filename.data then
    match utf8Decode decoded with
    | .error e => .error e
    | .ok text =>
      match read_csv_chars text with
      | .error e => .error e
      | .ok d => .ok (some d)
  else if containsSub "xls".data filename.data then
    match readExcel decoded with
    | .error e => .error e
    | .ok d => .ok (some d)
  else .ok none

/-- Python `contents[0:200] + '...'` (layout.py line 183). -/
def rawExcerpt (contents : String) : String :=
  String.mk (contents.data.take 200) ++ "..."

/-- layout.py lines 152-187, `parse_contents(contents, filename, date)`.
The data-URL split and the base64 decode happen before the `try` block, so
their exceptions escape (`.error`); an exception inside the `try` block is
caught and rendered as the error `Div`; when neither filename test matched,
line 175 reads the unassigned local `df` and `UnboundLocalError` escapes. -/
def parse_contents (readExcel : List Nat → Except String DataFrame)
    (contents filename : String) (date : Nat) : Except PyError UploadRender :=
  match pySplit2 contents with
  | .error e => .error e
  | .ok (_content_type, content_string) =>
    match b64decode content_string.data with
    | .error e => .error e
    | .ok decoded =>
      match parseBranch readExcel filename decoded with
      | .error _e => .ok .errorDiv
      | .ok none => .error .unboundLocalError
      | .ok (some d) => .ok (.preview filename date d (rawExcerpt contents))

/-- The scalar values Dash hands to a callback, as Python objects. -/
inductive PyObj where
  | pystr : String → PyObj
  | pynum : Nat → PyObj
  | pynone : PyObj
deriving DecidableEq

/-- Python iteration: a string iterates over its characters (as one-character
strings); a number or `None` is not iterable and raises `TypeError`. -/
def pyIter : PyObj → Except PyError (List PyObj)
  | .pystr s => .ok (s.data.map (fun c => .pystr (String.mk [c])))
  | .pynum _ => .error .typeError
  | .pynone => .error .typeError

/-- Python `zip(a, b, c)`: all three arguments must be iterable. -/
def pyZip3 (a b c : PyObj) : Except PyError (List (PyObj × PyObj × PyObj)) :=
  match pyIter a with
  | .error e => .error e
  | .ok la =>
    match pyIter b with
    | .error e => .error e
    | .ok lb =>
      match pyIter c with
      | .error e => .error e
      | .ok lc => .ok (la.zip (lb.zip lc))

/-- A `parse_contents(c, n, d)` call on values taken out of the zip in
`update_output`.  The arguments are coerced to the types `parse_contents`
was written for; any other shapes (only reachable if the zip itself had
succeeded on non-(str, str, num) triples) raise a `TypeError`. -/
def parse_contents_obj (readExcel : List Nat → Except String DataFrame) :
    PyObj × PyObj × PyObj → Except PyError UploadRender
  | (.pystr c, .pystr n, .pynum d) => parse_contents readExcel c n d
  | _ => .error .typeError

/-- layout.py lines 198-208, `update_output`.  `dcc.Upload` is configured
with `multiple=False` (line 142), so Dash passes one contents string (or
`None` before any upload), one filename string and one numeric timestamp;
the body nevertheless zips the three values as if they were lists. -/
def update_output (readExcel : List Nat → Except String DataFrame)
    (list_of_contents : Option String) (list_of_names : String)
    (list_of_dates : Nat) : Except PyError (Option (List UploadRender)) :=
  match list_of_contents with
  | none => .ok none
  | some c =>
    match pyZip3 (.pystr c) (.pystr list_of_names) (.pynum list_of_dates) with
    | .error e => .error e
    | .ok triples =>
      match triples.mapM (parse_contents_obj readExcel) with
      | .error e => .error e
      | .ok children => .ok (some children)

/-! ## Download path -/

/-- The decimal digit character for `n < 10`. -/
def digitChar (n : Nat) : Char := Char.ofNat (48 + n)

/-- Digit accumulation with explicit fuel (one digit per step, so `n + 1`
units of fuel always suffice). -/
def natToCharsAux : Nat → Nat → List Char → List Char
  | 0, _, acc => acc
  | fuel + 1, n, acc =>
    if n < 10 then digitChar n :: acc
    else natToCharsAux fuel (n / 10) (digitChar (n % 10) :: acc)

/-- Decimal rendering of a natural number, most significant digit first. -/
def natToChars (n : Nat) : List Char := natToCharsAux (n + 1) n []

/-- Zero-padded two-digit decimal. -/
def pad2 (n : Nat) : List Char := if n < 10 then '0' :: natToChars n else natToChars n

/-- Zero-padded four-digit decimal. -/
def pad4 (n : Nat) : List Char :=
  if n < 10 then '0' :: '0' :: '0' :: natToChars n
  else if n < 100 then '0' :: '0' :: natToChars n
  else if n < 1000 then '0' :: natToChars n
  else natToChars n

/-- How pandas writes a midnight `datetime64` cell to CSV: the ISO date. -/
def dateToCsvChars (d : Date) : List Char :=
  pad4 d.year ++ '-' :: pad2 d.month ++ '-' :: pad2 d.day

def dateToCsv (d : Date) : String := String.mk (dateToCsvChars d)

/-- `df` together with the pandas row index it inherits from `data`: the
positions (in the original frame) of the rows surviving the
`is_canceled == 0` filter. -/
def df_indexed (data : List BookingRecord) : List (Nat × String × Date) :=
  (data.enum.filter (fun p => p.2.is_canceled == 0)).map
    (fun p => (p.1, p.2.hotel, p.2.arrival_date))

/-- One data line of `df.to_csv()`: index, hotel, arrival date. -/
def csvLine (r : Nat × String × Date) : List Char :=
  natToChars r.1 ++ ',' :: r.2.1.data ++ ',' :: dateToCsvChars r.2.2

/-- The header line `df.to_csv()` writes: an empty cell for the unnamed
index, then the two column names. -/
def headerLine : List Char := ",hotel,arrival_date".data

/-- `df.to_csv()` with pandas defaults (layout.py line 196): the row index
is written as an unnamed first column, then `hotel` and `arrival_date`;
every line ends in a newline. -/
def df_to_csv_data (data : List BookingRecord) : List Char :=
  headerLine ++ '\n' :: ((df_indexed data).map (fun r => csvLine r ++ ['\n'])).flatten

def df_to_csv (data : List BookingRecord) : String := String.mk (df_to_csv_data data)

/-- What `dcc.send_data_frame` hands to the browser: file content plus the
download file name. -/
structure DownloadData where
  content : String
  filename : String
deriving DecidableEq

/-- layout.py lines 195-196, `download_csv`: serialize `df` and name the
download `no_cancel_bookings.csv`; the click count is unused. -/
def download_csv (data : List BookingRecord) (_n_clicks : Nat) : DownloadData :=
  ⟨df_to_csv data, "no_cancel_bookings.csv"⟩

/-- An `@app.callback` registration option. -/
structure CallbackConfig where
  prevent_initial_call : Bool
deriving DecidableEq

/-- layout.py lines 189-193: the `download_csv` callback is registered with
`prevent_initial_call=True`. -/
def download_csv_config : CallbackConfig := ⟨true⟩

/-- Modelled from the spec: what the framework emits for a callback when the
page first loads — Dash invokes it (with zero clicks) only when
`prevent_initial_call` is false ("Must not fire on initial page load — only
on explicit trigger"). -/
def initial_load_output (cfg : CallbackConfig) (cb : Nat → DownloadData) :
    Option DownloadData :=
  if cfg.prevent_initial_call then none else some (cb 0)

/-! ## Startup chart construction -/

/-- The columns of the reindexed crosstab: the distinct hotels among the
non-canceled records. -/
def final_rush_columns (data : List BookingRecord) : List String :=
  sortedUnique ((no_canceled data).map (fun r => r.hotel))

/-- `final_rush[h]`: pandas column selection, as the busy-month figure
performs it; `KeyError` when `h` is not one of the crosstab's columns.
A `none` cell is the NaN produced by `reindex` for an absent month. -/
def final_rush_col (data : List BookingRecord) (h : String) :
    Except PyError (List (String × Option Nat)) :=
  if h ∈ final_rush_columns data then
    .ok ((final_rush data).map (fun row =>
      (row.1, row.2.bind (fun cells =>
        (cells.find? (fun c => c.1 == h)).map (fun c => c.2)))))
  else .error .keyError

/-- layout.py lines 62-98: building the busy-month figure at startup
evaluates `final_rush['City Hotel']` and `final_rush['Resort Hotel']`. -/
def busy_month_figure (data : List BookingRecord) :
    Except PyError (List (String × Option Nat) × List (String × Option Nat)) :=
  match final_rush_col data "City Hotel" with
  | .error e => .error e
  | .ok city =>
    match final_rush_col data "Resort Hotel" with
    | .error e => .error e
    | .ok resort => .ok (city, resort)

/-! ## Helper lemmas -/

lemma mem_sortedUnique {a : String} {l : List String} :
    a ∈ sortedUnique l ↔ a ∈ l := by
  unfold sortedUnique
  rw [(List.perm_insertionSort _ _).mem_iff, List.mem_dedup]

lemma sortedUnique_perm_eq {l l' : List String} (h : l.Perm l') :
    sortedUnique l = sortedUnique l' :=
  List.eq_of_perm_of_sorted
    ((List.perm_insertionSort _ _).trans (h.dedup.trans (List.perm_insertionSort _ _).symm))
    (List.sorted_insertionSort _ _) (List.sorted_insertionSort _ _)

lemma crosstabCount_perm {l l' : List BookingRecord} (h : l.Perm l') (m ho : String) :
    crosstabCount l m ho = crosstabCount l' m ho := h.countP_eq _

lemma crosstab_perm {l l' : List BookingRecord} (h : l.Perm l') :
    crosstab l = crosstab l' := by
  unfold crosstab
  rw [sortedUnique_perm_eq (h.map _), sortedUnique_perm_eq (h.map _)]
  refine List.map_congr_left (fun m _ => ?_)
  refine congrArg (fun t => (m, t)) ?_
  refine List.map_congr_left (fun ho _ => ?_)
  rw [crosstabCount_perm h]

lemma no_canceled_sublist (data : List BookingRecord) :
    (no_canceled data).Sublist data := List.filter_sublist data

lemma mem_no_canceled_is_canceled {data : List BookingRecord} {r : BookingRecord}
    (h : r ∈ no_canceled data) : r.is_canceled = 0 := by
  have h2 := (List.mem_filter.mp h).2
  simpa using h2

lemma no_canceled_idem (data : List BookingRecord) :
    no_canceled (no_canceled data) = no_canceled data :=
  List.filter_eq_self.mpr (fun _a ha => (List.mem_filter.mp ha).2)

lemma no_canceled_perm {data data' : List BookingRecord} (h : data.Perm data') :
    (no_canceled data).Perm (no_canceled data') := h.filter _

/-! ## Example records for concrete witnesses -/

def rRes : BookingRecord := ⟨"Resort Hotel", 0, ⟨2016, 7, 1⟩, 100⟩

def rCityCan : BookingRecord := ⟨"City Hotel", 1, ⟨2016, 7, 2⟩, 80⟩

def rCityDec : BookingRecord := ⟨"City Hotel", 0, ⟨2015, 12, 3⟩, 50⟩

/-! ## C3: the busy-month table -/

/-- C3: for every input dataset, the busy-month table `final_rush` is built
only from non-canceled records, its rows are exactly the 12 calendar month
names in calendar order regardless of input row order, and a month with no
bookings still appears, as a row with an absent (`none`) value. -/
theorem C3_busy_month_table (data data' : List BookingRecord) (hperm : data.Perm data') :
    (final_rush data).map Prod.fst = month
    ∧ final_rush data = final_rush (no_canceled data)
    ∧ final_rush data = final_rush data'
    ∧ ∀ m ∈ month, (∀ r ∈ no_canceled data, month_name r.arrival_date ≠ m) →
        (m, (none : Option (List (String × Nat)))) ∈ final_rush data := by
  refine ⟨?_, ?_, ?_, ?_⟩
  · rw [final_rush, List.map_map]
    exact List.map_id month
  · unfold final_rush
    rw [no_canceled_idem]
  · unfold final_rush
    rw [crosstab_perm (no_canceled_perm hperm)]
  · intro m hm habs
    have hfind : (crosstab (no_canceled data)).find? (fun row => row.1 == m) = none := by
      rw [List.find?_eq_none]
      intro x hx
      unfold crosstab at hx
      obtain ⟨mn, hmn, rfl⟩ := List.mem_map.mp hx
      have hmem : mn ∈ (no_canceled data).map (fun r => month_name r.arrival_date) :=
        mem_sortedUnique.mp hmn
      obtain ⟨r, hr, hrm⟩ := List.mem_map.mp hmem
      simp only [beq_iff_eq]
      intro hcon
      exact habs r hr (by rw [hrm, hcon])
    have hnone : reindexRow (crosstab (no_canceled data)) m = none := by
      unfold reindexRow
      rw [hfind]
      rfl
    exact List.mem_map.mpr ⟨m, hm, by rw [hnone]⟩

def dC3 : List BookingRecord := [rRes, rCityDec]

def dC3sw : List BookingRecord := [rCityDec, rRes]

/-- Witness for C3 at a concrete two-record dataset and its transposition. -/
theorem C3_busy_month_table_witness :
    (final_rush dC3).map Prod.fst = month
    ∧ final_rush dC3 = final_rush (no_canceled dC3)
    ∧ final_rush dC3 = final_rush dC3sw
    ∧ ∀ m ∈ month, (∀ r ∈ no_canceled dC3, month_name r.arrival_date ≠ m) →
        (m, (none : Option (List (String × Nat)))) ∈ final_rush dC3 :=
  C3_busy_month_table dC3 dC3sw (List.Perm.swap rCityDec rRes [])

/-! ## C5: the filtered-bookings view -/

/-- C5: the filtered view contains no canceled record, is the projection of
the non-canceled records to (hotel, arrival_date), and the filter is a
sublist of the input, so relative row order is preserved. -/
theorem C5_filter_active (data : List BookingRecord) :
    (∀ r ∈ no_canceled data, r.is_canceled = 0)
    ∧ df data = (data.filter (fun r => r.is_canceled == 0)).map
        (fun r => (r.hotel, r.arrival_date))
    ∧ (no_canceled data).Sublist data :=
  ⟨fun _ hr => mem_no_canceled_is_canceled hr, rfl, no_canceled_sublist data⟩

def dC5 : List BookingRecord := [rRes, rCityCan, rCityDec]

/-- Witness for C5: on a dataset with one canceled row, the view keeps the
two non-canceled rows in order and drops the canceled one. -/
theorem C5_filter_active_witness :
    df dC5 = [("Resort Hotel", (⟨2016, 7, 1⟩ : Date)), ("City Hotel", ⟨2015, 12, 3⟩)]
    ∧ ((∀ r ∈ no_canceled dC5, r.is_canceled = 0)
      ∧ df dC5 = (dC5.filter (fun r => r.is_canceled == 0)).map
          (fun r => (r.hotel, r.arrival_date))
      ∧ (no_canceled dC5).Sublist dC5) :=
  ⟨by decide, C5_filter_active dC5⟩

/-! ## C10: the startup chart's fixed column lookups -/

lemma mem_final_rush_columns {data : List BookingRecord} {h : String} :
    h ∈ final_rush_columns data ↔ h ∈ (no_canceled data).map (fun r => r.hotel) :=
  mem_sortedUnique

/-- C10: startup chart construction succeeds exactly when both fixed hotel
categories occur among the non-canceled records; lacking either, it raises
a KeyError instead of producing a figure. -/
theorem C10_startup_columns (data : List BookingRecord) :
    ((∃ fig, busy_month_figure data = .ok fig) ↔
      ("City Hotel" ∈ (no_canceled data).map (fun r => r.hotel)
       ∧ "Resort Hotel" ∈ (no_canceled data).map (fun r => r.hotel)))
    ∧ (("City Hotel" ∉ (no_canceled data).map (fun r => r.hotel)
       ∨ "Resort Hotel" ∉ (no_canceled data).map (fun r => r.hotel)) →
       busy_month_figure data = .error .keyError) := by
  by_cases hc : "City Hotel" ∈ final_rush_columns data
  · by_cases hr : "Resort Hotel" ∈ final_rush_columns data
    · have hok : busy_month_figure data = .ok
          ((final_rush data).map (fun row => (row.1, row.2.bind (fun cells =>
              (cells.find? (fun c => c.1 == "City Hotel")).map (fun c => c.2)))),
           (final_rush data).map (fun row => (row.1, row.2.bind (fun cells =>
              (cells.find? (fun c => c.1 == "Resort Hotel")).map (fun c => c.2))))) := by
        unfold busy_month_figure final_rush_col
        rw [if_pos hc, if_pos hr]
      refine ⟨⟨fun _ => ⟨mem_final_rush_columns.mp hc, mem_final_rush_columns.mp hr⟩,
        fun _ => ⟨_, hok⟩⟩, fun hor => ?_⟩
      rcases hor with h1 | h1
      · exact absurd (mem_final_rush_columns.mp hc) h1
      · exact absurd (mem_final_rush_columns.mp hr) h1
    · have herr : busy_month_figure data = .error .keyError := by
        unfold busy_month_figure final_rush_col
        rw [if_pos hc, if_neg hr]
      refine ⟨⟨fun hfig => ?_, fun hboth => ?_⟩, fun _ => herr⟩
      · obtain ⟨fig, hfig⟩ := hfig
        rw [herr] at hfig
        exact absurd hfig (by simp)
      · exact absurd (mem_final_rush_columns.mpr hboth.2) hr
  · have herr : busy_month_figure data = .error .keyError := by
      unfold busy_month_figure final_rush_col
      rw [if_neg hc]
    refine ⟨⟨fun hfig => ?_, fun hboth => ?_⟩, fun _ => herr⟩
    · obtain ⟨fig, hfig⟩ := hfig
      rw [herr] at hfig
      exact absurd hfig (by simp)
    · exact absurd (mem_final_rush_columns.mpr hboth.1) hc

def dC10 : List BookingRecord := [rRes]

/-- Witness for C10: a dataset with only resort bookings makes startup fail
with a KeyError. -/
theorem C10_startup_columns_witness :
    busy_month_figure dC10 = .error .keyError :=
  (C10_startup_columns dC10).2 (Or.inl (by decide))

/-! ## C4: the ADR-by-month aggregate -/

lemma mem_hotelCategories {data : List BookingRecord} {h : String} :
    h ∈ hotelCategories data ↔ ∃ r ∈ data, r.hotel = h := by
  unfold hotelCategories
  rw [mem_sortedUnique, List.mem_map]

lemma mem_groupKeys {data : List BookingRecord} {p : String × String} :
    p ∈ groupKeys data ↔
      ((∃ r ∈ data, month_name r.arrival_date = p.1)
        ∧ ∃ r ∈ data, r.hotel = p.2) := by
  unfold groupKeys
  rw [List.mem_flatten]
  constructor
  · rintro ⟨l, hl, hp⟩
    obtain ⟨m, hm, rfl⟩ := List.mem_map.mp hl
    obtain ⟨ho, hho, hpe⟩ := List.mem_map.mp hp
    obtain ⟨r1, hr1, hrm⟩ := List.mem_map.mp (mem_sortedUnique.mp hm)
    obtain ⟨r2, hr2, hrh⟩ := mem_hotelCategories.mp hho
    cases hpe
    exact ⟨⟨r1, hr1, hrm⟩, ⟨r2, hr2, hrh⟩⟩
  · rintro ⟨⟨r1, hr1, hm⟩, hh⟩
    refine ⟨(hotelCategories data).map (fun ho => (p.1, ho)),
      List.mem_map.mpr ⟨p.1, ?_, rfl⟩, ?_⟩
    · exact mem_sortedUnique.mpr (List.mem_map.mpr ⟨r1, hr1, hm⟩)
    · exact List.mem_map.mpr ⟨p.2, mem_hotelCategories.mpr hh, rfl⟩

lemma groupAdrs_eq_nil_iff {data : List BookingRecord} {m ho : String} :
    groupAdrs data m ho = [] ↔
      ∀ r ∈ data, ¬(month_name r.arrival_date = m ∧ r.hotel = ho) := by
  unfold groupAdrs
  rw [List.map_eq_nil_iff, List.filter_eq_nil_iff]
  constructor
  · intro h r hr hcon
    have h2 := h r hr
    simp only [Bool.and_eq_true, beq_iff_eq] at h2
    exact h2 ⟨hcon.1, hcon.2⟩
  · intro h r hr
    simp only [Bool.and_eq_true, beq_iff_eq]
    exact fun hcon => h r hr ⟨hcon.1, hcon.2⟩

def dC4x : List BookingRecord := [rRes, rCityDec]

/-- C4 counterexample: with one July resort booking and one December city
booking, the aggregate contains the row (July, City Hotel, NaN) although no
input record has that (month, hotel) pair — under pandas 1.x the
categorical `hotel` grouper with the default `observed=False` pads the
index with every hotel category. -/
theorem C4_counterexample :
    (⟨"July", "City Hotel", none⟩ : AdrRow) ∈ adr_month_hotel dC4x
    ∧ ∀ r ∈ dC4x, ¬(month_name r.arrival_date = "July"
        ∧ r.hotel = "City Hotel") := by
  constructor
  · rw [adr_month_hotel, (List.perm_insertionSort _ _).mem_iff, List.mem_map]
    refine ⟨("July", "City Hotel"), ?_, ?_⟩
    · exact mem_groupKeys.mpr
        ⟨⟨rRes, List.mem_cons_self _ _, by decide⟩,
         ⟨rCityDec, List.mem_cons_of_mem _ (List.mem_cons_self _ _), by decide⟩⟩
    · rw [if_pos (by decide : groupAdrs dC4x "July" "City Hotel" = [])]
  · decide

/-- C4 amended: every row of `adr_month_hotel` carries the rounded mean
`adr` of its (month, hotel) group taken over the full dataset (canceled
records included), NaN exactly when no record matches the pair; every
non-NaN value is an exact multiple of 1/100; the rows are sorted by
calendar month order; and the (month, hotel) pairs present are exactly the
product of the observed arrival months with all hotel categories — so
pairs absent from the input do appear, as NaN rows. -/
theorem C4_adr_by_month (data : List BookingRecord) :
    (∀ row ∈ adr_month_hotel data,
        row.adr = (if groupAdrs data row.arrival_month row.hotel = [] then none
          else some (round2 (mean (groupAdrs data row.arrival_month row.hotel))))
        ∧ (row.adr = none ↔ ∀ r ∈ data,
            ¬(month_name r.arrival_date = row.arrival_month ∧ r.hotel = row.hotel))
        ∧ (∀ q, row.adr = some q → ∃ k : ℤ, q = (k : ℚ) / 100)
        ∧ (∃ r ∈ data, month_name r.arrival_date = row.arrival_month)
        ∧ (∃ r ∈ data, r.hotel = row.hotel))
    ∧ List.Sorted adrRowLe (adr_month_hotel data)
    ∧ ∀ m ho,
        (∃ row ∈ adr_month_hotel data, row.arrival_month = m ∧ row.hotel = ho) ↔
        ((∃ r ∈ data, month_name r.arrival_date = m)
          ∧ ∃ r ∈ data, r.hotel = ho) := by
  refine ⟨?_, List.sorted_insertionSort _ _, ?_⟩
  · intro row hrow
    rw [adr_month_hotel, (List.perm_insertionSort _ _).mem_iff, List.mem_map] at hrow
    obtain ⟨p, hp, rfl⟩ := hrow
    have hmem := mem_groupKeys.mp hp
    refine ⟨rfl, ?_, ?_, hmem.1, hmem.2⟩
    · constructor
      · intro hnone
        by_cases hc : groupAdrs data p.1 p.2 = []
        · exact groupAdrs_eq_nil_iff.mp hc
        · rw [if_neg hc] at hnone
          exact absurd hnone (by simp)
      · intro hall
        rw [if_pos (groupAdrs_eq_nil_iff.mpr hall)]
    · intro q hq
      by_cases hc : groupAdrs data p.1 p.2 = []
      · rw [if_pos hc] at hq
        exact absurd hq (by simp)
      · rw [if_neg hc] at hq
        exact ⟨roundHalfEven (mean (groupAdrs data p.1 p.2) * 100),
          by rw [← Option.some.inj hq]; rfl⟩
  · intro m ho
    constructor
    · rintro ⟨row, hrow, rfl, rfl⟩
      rw [adr_month_hotel, (List.perm_insertionSort _ _).mem_iff, List.mem_map] at hrow
      obtain ⟨p, hp, rfl⟩ := hrow
      exact mem_groupKeys.mp hp
    · rintro ⟨h1, h2⟩
      refine ⟨⟨m, ho, if groupAdrs data m ho = [] then none
        else some (round2 (mean (groupAdrs data m ho)))⟩, ?_, rfl, rfl⟩
      rw [adr_month_hotel, (List.perm_insertionSort _ _).mem_iff, List.mem_map]
      exact ⟨(m, ho), mem_groupKeys.mpr ⟨h1, h2⟩, rfl⟩

def dC4 : List BookingRecord := [rRes]

/-- Witness for C4: the single-record scenario of the spec, whose aggregate
is the one row (July, Resort Hotel, 100.00). -/
theorem C4_adr_by_month_witness :
    (adr_month_hotel dC4).map (fun row => (row.arrival_month, row.hotel))
      = [("July", "Resort Hotel")]
    ∧ round2 (mean (groupAdrs dC4 "July" "Resort Hotel")) = 100
    ∧ ((∀ row ∈ adr_month_hotel dC4,
        row.adr = (if groupAdrs dC4 row.arrival_month row.hotel = [] then none
          else some (round2 (mean (groupAdrs dC4 row.arrival_month row.hotel))))
        ∧ (row.adr = none ↔ ∀ r ∈ dC4,
            ¬(month_name r.arrival_date = row.arrival_month ∧ r.hotel = row.hotel))
        ∧ (∀ q, row.adr = some q → ∃ k : ℤ, q = (k : ℚ) / 100)
        ∧ (∃ r ∈ dC4, month_name r.arrival_date = row.arrival_month)
        ∧ (∃ r ∈ dC4, r.hotel = row.hotel))
    ∧ List.Sorted adrRowLe (adr_month_hotel dC4)
    ∧ ∀ m ho,
        (∃ row ∈ adr_month_hotel dC4, row.arrival_month = m ∧ row.hotel = ho) ↔
        ((∃ r ∈ dC4, month_name r.arrival_date = m)
          ∧ ∃ r ∈ dC4, r.hotel = ho)) :=
  ⟨by decide,
   by norm_num [groupAdrs, mean, round2, roundHalfEven, dC4, rRes, month_name,
     List.filter, month],
   C4_adr_by_month dC4⟩

/-! ## Upload-path claims -/

/-- A model `pd.read_excel` that rejects every payload. -/
def noExcel : List Nat → Except String DataFrame := fun _ => .error "not a workbook"

/-- A different model `pd.read_excel`, accepting everything as an empty frame:
used to show results do not depend on the excel parser. -/
def anyExcel : List Nat → Except String DataFrame := fun _ => .ok ⟨[], []⟩

/-- A single-file upload payload: the data URL of the CSV text
`a,b\n1,2\n3,4\n`. -/
def goodCsvContents : String := "data:text/csv;base64,YSxiCjEsMgozLDQK"

lemma parse_contents_congr (rex rex' : List Nat → Except String DataFrame)
    (contents filename : String) (date : Nat)
    (h : ∀ decoded, parseBranch rex filename decoded
      = parseBranch rex' filename decoded) :
    parse_contents rex contents filename date
      = parse_contents rex' contents filename date := by
  unfold parse_contents
  cases pySplit2 contents with
  | error e => rfl
  | ok pr =>
    obtain ⟨ct, cs⟩ := pr
    show (match b64decode cs.data with
          | .error e => (Except.error e : Except PyError UploadRender)
          | .ok decoded =>
            match parseBranch rex filename decoded with
            | .error _e => .ok .errorDiv
            | .ok none => .error .unboundLocalError
            | .ok (some d) => .ok (.preview filename date d (rawExcerpt contents)))
        = (match b64decode cs.data with
          | .error e => Except.error e
          | .ok decoded =>
            match parseBranch rex' filename decoded with
            | .error _e => .ok .errorDiv
            | .ok none => .error .unboundLocalError
            | .ok (some d) => .ok (.preview filename date d (rawExcerpt contents)))
    cases b64decode cs.data with
    | error e => rfl
    | ok decoded =>
      show (match parseBranch rex filename decoded with
            | .error _e => (Except.ok UploadRender.errorDiv : Except PyError UploadRender)
            | .ok none => .error .unboundLocalError
            | .ok (some d) => .ok (.preview filename date d (rawExcerpt contents)))
          = (match parseBranch rex' filename decoded with
            | .error _e => .ok .errorDiv
            | .ok none => .error .unboundLocalError
            | .ok (some d) => .ok (.preview filename date d (rawExcerpt contents)))
      rw [h decoded]

/-- C9: dispatch is by substring containment, not suffix matching: whenever
the filename contains "csv" anywhere, the result does not depend on the
excel parser at all and the try-block body is exactly the CSV parse of the
decoded bytes. -/
theorem C9_substring_dispatch (rex rex' : List Nat → Except String DataFrame)
    (contents filename : String) (date : Nat)
    (hcsv : containsSub "csv".data filename.data = true) :
    parse_contents rex contents filename date
      = parse_contents rex' contents filename date
    ∧ ∀ decoded, parseBranch rex filename decoded =
        (match utf8Decode decoded with
         | .error e => .error e
         | .ok text =>
           match read_csv_chars text with
           | .error e => .error e
           | .ok d => .ok (some d)) := by
  have hbr : ∀ (rex0 : List Nat → Except String DataFrame) (decoded : List Nat),
      parseBranch rex0 filename decoded =
        (match utf8Decode decoded with
         | .error e => .error e
         | .ok text =>
           match read_csv_chars text with
           | .error e => .error e
           | .ok d => .ok (some d)) := by
    intro rex0 decoded
    unfold parseBranch
    rw [if_pos hcsv]
  refine ⟨?_, hbr rex⟩
  exact parse_contents_congr rex rex' contents filename date
    (fun decoded => by rw [hbr rex decoded, hbr rex' decoded])

/-- Witness for C9: the filename "csv_report.xls" ends in a spreadsheet
extension but contains "csv", so the payload is parsed as CSV. -/
theorem C9_substring_dispatch_witness :
    containsSub "csv".data "csv_report.xls".data = true
    ∧ parse_contents noExcel goodCsvContents "csv_report.xls" 0
        = .ok (.preview "csv_report.xls" 0 ⟨["a", "b"], [["1", "2"], ["3", "4"]]⟩
            (goodCsvContents ++ "..."))
    ∧ parse_contents noExcel goodCsvContents "csv_report.xls" 0
        = parse_contents anyExcel goodCsvContents "csv_report.xls" 0 :=
  ⟨rfl, rfl,
    (C9_substring_dispatch noExcel anyExcel goodCsvContents "csv_report.xls" 0 rfl).1⟩

/-- C1 counterexample: a payload whose base64 segment has invalid padding is
a decode failure, and `parse_contents` raises binascii.Error past the
handler boundary instead of returning the user-visible error message. -/
theorem C1_counterexample :
    parse_contents noExcel "data:text/csv;base64,AAAAA" "a.csv" 0
      = .error .binasciiError
    ∧ ∀ render, parse_contents noExcel "data:text/csv;base64,AAAAA" "a.csv" 0
        ≠ .ok render := by
  have h1 : parse_contents noExcel "data:text/csv;base64,AAAAA" "a.csv" 0
      = .error .binasciiError := rfl
  exact ⟨h1, fun render hr => by rw [h1] at hr; exact Except.noConfusion hr⟩

/-- C1 amended: a parse failure inside the `try` block — malformed table
structure or undecodable UTF-8 text, after a successful data-URL split and
base64 decode — is caught and rendered as the inline error message, with no
exception escaping; failures of the split or of the base64 decode itself
are outside the `try` block and do escape. -/
theorem C1_parse_failure_caught (rex : List Nat → Except String DataFrame)
    (contents filename : String) (date : Nat) (ct cs : String)
    (decoded : List Nat) (e : String)
    (hsplit : pySplit2 contents = .ok (ct, cs))
    (hdec : b64decode cs.data = .ok decoded)
    (hfail : parseBranch rex filename decoded = .error e) :
    parse_contents rex contents filename date = .ok .errorDiv := by
  unfold parse_contents
  simp only [hsplit, hdec, hfail]

/-- Witness for C1: the base64 payload `/w==` decodes to the byte 0xFF,
which is not valid UTF-8, so the CSV branch fails inside the `try` block
and the handler returns the error message. -/
theorem C1_parse_failure_caught_witness :
    pySplit2 "data:text/csv;base64,/w==" = .ok ("data:text/csv;base64", "/w==")
    ∧ b64decode "/w==".data = .ok [255]
    ∧ parseBranch noExcel "a.csv" [255] = .error "invalid start byte"
    ∧ parse_contents noExcel "data:text/csv;base64,/w==" "a.csv" 0 = .ok .errorDiv :=
  ⟨rfl, rfl, rfl,
    C1_parse_failure_caught noExcel "data:text/csv;base64,/w==" "a.csv" 0
      "data:text/csv;base64" "/w==" [255] "invalid start byte" rfl rfl rfl⟩

/-- C2 counterexample: at the filename "data.txt" (neither "csv" nor "xls"
is a substring) with a well-formed payload, `parse_contents` raises an
uncaught UnboundLocalError; it does not return the user-visible
parse-failure message, so the upload is not treated as a parse failure. -/
theorem C2_counterexample :
    parse_contents noExcel goodCsvContents "data.txt" 0 = .error .unboundLocalError
    ∧ parse_contents noExcel goodCsvContents "data.txt" 0 ≠ .ok .errorDiv := by
  have h1 : parse_contents noExcel goodCsvContents "data.txt" 0
      = .error .unboundLocalError := rfl
  exact ⟨h1, by rw [h1]; exact fun hc => Except.noConfusion hc⟩

/-- C2 amended: for every filename containing neither "csv" nor "xls", once
the data-URL split and the base64 decode succeed, `parse_contents` raises
an uncaught UnboundLocalError (the `try` body assigned no local `df`): it
never silently succeeds by rendering any data, but it also does not return
the user-visible parse-failure message. -/
theorem C2_no_match_unbound (rex : List Nat → Except String DataFrame)
    (contents filename : String) (date : Nat) (ct cs : String)
    (decoded : List Nat)
    (hsplit : pySplit2 contents = .ok (ct, cs))
    (hdec : b64decode cs.data = .ok decoded)
    (hcsv : containsSub "csv".data filename.data = false)
    (hxls : containsSub "xls".data filename.data = false) :
    parse_contents rex contents filename date = .error .unboundLocalError
    ∧ ∀ render, parse_contents rex contents filename date ≠ .ok render := by
  have hbr : parseBranch rex filename decoded = .ok none := by
    unfold parseBranch
    simp [hcsv, hxls]
  have h1 : parse_contents rex contents filename date = .error .unboundLocalError := by
    unfold parse_contents
    simp only [hsplit, hdec, hbr]
  exact ⟨h1, fun render hr => by rw [h1] at hr; exact Except.noConfusion hr⟩

/-- Witness for C2: "data.txt" with a well-formed CSV payload. -/
theorem C2_no_match_unbound_witness :
    pySplit2 goodCsvContents = .ok ("data:text/csv;base64", "YSxiCjEsMgozLDQK")
    ∧ containsSub "csv".data "data.txt".data = false
    ∧ containsSub "xls".data "data.txt".data = false
    ∧ parse_contents anyExcel goodCsvContents "data.txt" 0 = .error .unboundLocalError :=
  ⟨rfl, rfl, rfl,
    (C2_no_match_unbound anyExcel goodCsvContents "data.txt" 0
      "data:text/csv;base64" "YSxiCjEsMgozLDQK"
      [97, 44, 98, 10, 49, 44, 50, 10, 51, 44, 52, 10] rfl rfl rfl rfl).1⟩

/-- C7 (code bug): with `multiple=False`, Dash hands `update_output` one
contents string, one filename string and one numeric timestamp; the body
zips the three scalars, and iterating the number raises TypeError, so the
callback never renders a preview — although `parse_contents` itself, given
the same payload directly, would return exactly the claimed two-column,
two-row table. -/
theorem C7_upload_callback :
    update_output noExcel (some goodCsvContents) "test.csv" 0 = .error .typeError
    ∧ parse_contents noExcel goodCsvContents "test.csv" 0
        = .ok (.preview "test.csv" 0 ⟨["a", "b"], [["1", "2"], ["3", "4"]]⟩
            (goodCsvContents ++ "...")) :=
  ⟨rfl, rfl⟩

/-! ## CSV text lemmas -/

lemma splitOnChar_ne_nil (sep : Char) (l : List Char) : splitOnChar sep l ≠ [] := by
  cases l with
  | nil => simp [splitOnChar]
  | cons c rest =>
    rw [splitOnChar]
    cases splitOnChar sep rest with
    | nil => simp
    | cons g gs =>
      show ¬(if c == sep then [] :: g :: gs else (c :: g) :: gs) = []
      split <;> simp

lemma splitOnChar_sep_not_mem (sep : Char) (a : List Char) (ha : sep ∉ a) :
    splitOnChar sep a = [a] := by
  induction a with
  | nil => rfl
  | cons c rest ih =>
    have hc : (c == sep) = false := by
      simp only [beq_eq_false_iff_ne, ne_eq]
      intro hcs
      exact ha (hcs ▸ List.mem_cons_self c rest)
    rw [splitOnChar, ih (fun hm => ha (List.mem_cons_of_mem c hm)), hc]
    simp

lemma splitOnChar_append_sep (sep : Char) (a b : List Char) (ha : sep ∉ a) :
    splitOnChar sep (a ++ sep :: b) = a :: splitOnChar sep b := by
  induction a with
  | nil =>
    rw [List.nil_append, splitOnChar]
    cases hsb : splitOnChar sep b with
    | nil => exact absurd hsb (splitOnChar_ne_nil sep b)
    | cons g gs => simp
  | cons c rest ih =>
    have hc : (c == sep) = false := by
      simp only [beq_eq_false_iff_ne, ne_eq]
      intro hcs
      exact ha (hcs ▸ List.mem_cons_self c rest)
    rw [List.cons_append, splitOnChar,
      ih (fun hm => ha (List.mem_cons_of_mem c hm)), hc]
    simp

lemma splitOnChar_flatten_lines (sep : Char) (lines : List (List Char))
    (h : ∀ l ∈ lines, sep ∉ l) :
    splitOnChar sep ((lines.map (fun l => l ++ [sep])).flatten) = lines ++ [[]] := by
  induction lines with
  | nil => rfl
  | cons l rest ih =>
    rw [List.map_cons, List.flatten_cons]
    have hassoc : (l ++ [sep]) ++ ((rest.map (fun l2 => l2 ++ [sep])).flatten)
        = l ++ sep :: ((rest.map (fun l2 => l2 ++ [sep])).flatten) := by
      rw [List.append_assoc]
      rfl
    rw [hassoc, splitOnChar_append_sep sep l _ (h l (List.mem_cons_self l rest)),
      ih (fun l2 hl2 => h l2 (List.mem_cons_of_mem l hl2))]
    rfl

/-! ## C8: the download callback -/

/-- C8: the download callback is registered with `prevent_initial_call`, so
the framework model emits nothing on initial page load; on an explicit
trigger it emits the `to_csv` serialization of the filtered view — header
line first — under the name `no_cancel_bookings.csv`. -/
theorem C8_download_trigger (data : List BookingRecord) (n : Nat) :
    initial_load_output download_csv_config (download_csv data) = none
    ∧ download_csv data n = ⟨df_to_csv data, "no_cancel_bookings.csv"⟩
    ∧ (splitOnChar '\n' (df_to_csv data).data).head? = some headerLine
    ∧ (df_to_csv data).data =
        headerLine ++ '\n' :: ((df_indexed data).map (fun r => csvLine r ++ ['\n'])).flatten := by
  refine ⟨rfl, rfl, ?_, rfl⟩
  show (splitOnChar '\n' (df_to_csv_data data)).head? = some headerLine
  rw [df_to_csv_data,
    splitOnChar_append_sep _ _ _ (by decide : '\n' ∉ headerLine)]
  rfl

/-- Witness for C8 at a concrete dataset. -/
theorem C8_download_trigger_witness :
    download_csv dC5 1 = ⟨df_to_csv dC5, "no_cancel_bookings.csv"⟩
    ∧ df_to_csv dC5 = ",hotel,arrival_date\n0,Resort Hotel,2016-07-01\n2,City Hotel,2015-12-03\n"
    ∧ initial_load_output download_csv_config (download_csv dC5) = none :=
  ⟨(C8_download_trigger dC5 1).2.1, by decide, (C8_download_trigger dC5 1).1⟩

/-! ## C6: the CSV round-trip -/

lemma natToCharsAux_mem : ∀ {fuel n : Nat} {acc : List Char} {c : Char},
    c ∈ natToCharsAux fuel n acc → (∃ d, d < 10 ∧ c = digitChar d) ∨ c ∈ acc := by
  intro fuel
  induction fuel with
  | zero => intro n acc c hc; exact Or.inr hc
  | succ fuel ih =>
    intro n acc c hc
    rw [natToCharsAux] at hc
    split at hc
    · rcases List.mem_cons.mp hc with rfl | h2
      · rename_i hlt
        exact Or.inl ⟨n, hlt, rfl⟩
      · exact Or.inr h2
    · rcases ih hc with h2 | h2
      · exact Or.inl h2
      · rcases List.mem_cons.mp h2 with rfl | h3
        · exact Or.inl ⟨n % 10, Nat.mod_lt _ (by omega), rfl⟩
        · exact Or.inr h3

lemma natToChars_digit {n : Nat} {c : Char} (hc : c ∈ natToChars n) :
    ∃ d, d < 10 ∧ c = digitChar d := by
  rcases natToCharsAux_mem hc with h | h
  · exact h
  · simp at h

lemma digitChar_ne_comma_newline {d : Nat} (hd : d < 10) :
    digitChar d ≠ ',' ∧ digitChar d ≠ '\n' := by
  interval_cases d <;> exact ⟨by decide, by decide⟩

lemma natToChars_no_comma {n : Nat} : ',' ∉ natToChars n := by
  intro h
  obtain ⟨d, hd, he⟩ := natToChars_digit h
  exact (digitChar_ne_comma_newline hd).1 he.symm

lemma natToChars_no_newline {n : Nat} : '\n' ∉ natToChars n := by
  intro h
  obtain ⟨d, hd, he⟩ := natToChars_digit h
  exact (digitChar_ne_comma_newline hd).2 he.symm

lemma natToCharsAux_ne_nil : ∀ {fuel n : Nat} {acc : List Char}, acc ≠ [] →
    natToCharsAux fuel n acc ≠ [] := by
  intro fuel
  induction fuel with
  | zero => intro n acc h; exact h
  | succ fuel ih =>
    intro n acc h
    rw [natToCharsAux]
    split
    · simp
    · exact ih (by simp)

lemma natToChars_ne_nil (n : Nat) : natToChars n ≠ [] := by
  rw [natToChars, natToCharsAux]
  split
  · simp
  · exact natToCharsAux_ne_nil (by simp)

lemma pad2_chars {n : Nat} {c : Char} (hc : c ∈ pad2 n) :
    ∃ d, d < 10 ∧ c = digitChar d := by
  rw [pad2] at hc
  split at hc
  · rcases List.mem_cons.mp hc with rfl | h2
    · exact ⟨0, by omega, rfl⟩
    · exact natToChars_digit h2
  · exact natToChars_digit hc

lemma pad4_chars {n : Nat} {c : Char} (hc : c ∈ pad4 n) :
    ∃ d, d < 10 ∧ c = digitChar d := by
  rw [pad4] at hc
  split at hc
  · simp only [List.mem_cons] at hc
    rcases hc with rfl | rfl | rfl | h2
    · exact ⟨0, by omega, rfl⟩
    · exact ⟨0, by omega, rfl⟩
    · exact ⟨0, by omega, rfl⟩
    · exact natToChars_digit h2
  · split at hc
    · simp only [List.mem_cons] at hc
      rcases hc with rfl | rfl | h2
      · exact ⟨0, by omega, rfl⟩
      · exact ⟨0, by omega, rfl⟩
      · exact natToChars_digit h2
    · split at hc
      · rcases List.mem_cons.mp hc with rfl | h2
        · exact ⟨0, by omega, rfl⟩
        · exact natToChars_digit h2
      · exact natToChars_digit hc

lemma dateToCsvChars_chars {d : Date} {c : Char} (hc : c ∈ dateToCsvChars d) :
    (∃ k, k < 10 ∧ c = digitChar k) ∨ c = '-' := by
  rw [dateToCsvChars] at hc
  simp only [List.mem_append, List.mem_cons] at hc
  rcases hc with (h | he | h) | he | h
  · exact Or.inl (pad4_chars h)
  · exact Or.inr he
  · exact Or.inl (pad2_chars h)
  · exact Or.inr he
  · exact Or.inl (pad2_chars h)

lemma dateToCsvChars_no_comma {d : Date} : ',' ∉ dateToCsvChars d := by
  intro hc
  rcases dateToCsvChars_chars hc with ⟨k, hk, he⟩ | he
  · exact (digitChar_ne_comma_newline hk).1 he.symm
  · exact absurd he (by decide)

lemma dateToCsvChars_no_newline {d : Date} : '\n' ∉ dateToCsvChars d := by
  intro hc
  rcases dateToCsvChars_chars hc with ⟨k, hk, he⟩ | he
  · exact (digitChar_ne_comma_newline hk).2 he.symm
  · exact absurd he (by decide)

lemma csvLine_eq (r : Nat × String × Date) :
    csvLine r = natToChars r.1 ++ ',' :: (r.2.1.data ++ ',' :: dateToCsvChars r.2.2) := by
  rw [csvLine]
  simp [List.append_assoc]

lemma csvLine_no_newline {r : Nat × String × Date} (hh : '\n' ∉ r.2.1.data) :
    '\n' ∉ csvLine r := by
  intro hc
  rw [csvLine_eq] at hc
  simp only [List.mem_append, List.mem_cons] at hc
  rcases hc with h | he | h | he | h
  · exact natToChars_no_newline h
  · exact absurd he (by decide)
  · exact hh h
  · exact absurd he (by decide)
  · exact dateToCsvChars_no_newline h

lemma splitOnChar_csvLine (r : Nat × String × Date) (hh : ',' ∉ r.2.1.data) :
    splitOnChar ',' (csvLine r) = [natToChars r.1, r.2.1.data, dateToCsvChars r.2.2] := by
  rw [csvLine_eq, splitOnChar_append_sep _ _ _ natToChars_no_comma,
    splitOnChar_append_sep _ _ _ hh,
    splitOnChar_sep_not_mem _ _ dateToCsvChars_no_comma]

lemma csvLine_ne_nil (r : Nat × String × Date) : csvLine r ≠ [] := by
  rw [csvLine_eq]
  intro h
  exact natToChars_ne_nil r.1 (List.append_eq_nil.mp h).1

lemma df_indexed_proj (data : List BookingRecord) :
    (df_indexed data).map (fun r => [r.2.1, dateToCsv r.2.2]) =
      (df data).map (fun p => [p.1, dateToCsv p.2]) := by
  unfold df_indexed df no_canceled
  rw [List.map_map, List.map_map]
  have hmap : data.filter (fun r => r.is_canceled == 0)
      = (data.enum.filter (fun p => p.2.is_canceled == 0)).map Prod.snd := by
    conv_lhs => rw [← List.enum_map_snd data]
    rw [List.filter_map]
    rfl
  rw [hmap, List.map_map]
  rfl

/-- A cell string that needs no CSV quoting: no separator characters.  The
hotel-category strings of the dataset satisfy this. -/
def csvSafe (s : String) : Prop := ',' ∉ s.data ∧ '\n' ∉ s.data

instance (s : String) : Decidable (csvSafe s) :=
  inferInstanceAs (Decidable (',' ∉ s.data ∧ '\n' ∉ s.data))

/-- The FilteredBookings view as a string-celled table with the §3 columns:
what the round-trip claim compares the re-parsed CSV against. -/
def df_table (data : List BookingRecord) : DataFrame :=
  ⟨["hotel", "arrival_date"], (df data).map (fun p => [p.1, dateToCsv p.2])⟩

def dC6 : List BookingRecord := [rRes]

/-- C6 counterexample: re-parsing the downloaded CSV of a one-row dataset
yields a three-column table — the row index `to_csv` wrote comes back as a
column named "Unnamed: 0" — which is not the original two-column
FilteredBookings table. -/
theorem C6_counterexample :
    read_csv_chars (df_to_csv dC6).data =
      .ok ⟨["Unnamed: 0", "hotel", "arrival_date"], [["0", "Resort Hotel", "2016-07-01"]]⟩
    ∧ ∀ t, read_csv_chars (df_to_csv dC6).data = .ok t → t ≠ df_table dC6 := by
  have h1 : read_csv_chars (df_to_csv dC6).data =
      .ok ⟨["Unnamed: 0", "hotel", "arrival_date"], [["0", "Resort Hotel", "2016-07-01"]]⟩ := rfl
  refine ⟨h1, fun t ht hcon => ?_⟩
  rw [h1, hcon] at ht
  have h2 : df_table dC6
      = ⟨["hotel", "arrival_date"], [["Resort Hotel", "2016-07-01"]]⟩ := rfl
  rw [h2] at ht
  exact absurd (Except.ok.inj ht) (by decide)

/-- C6 amended: serializing FilteredBookings with the download handler and
re-parsing yields the original table prefixed with one extra column — the
pandas row index, whose header cell reads back as "Unnamed: 0"; dropping
that first column from every row recovers the original FilteredBookings
exactly (for cell strings free of CSV separator characters). -/
theorem C6_roundtrip_with_index (data : List BookingRecord)
    (hsafe : ∀ r ∈ data, csvSafe r.hotel) :
    read_csv_chars (df_to_csv data).data =
      .ok ⟨"Unnamed: 0" :: (df_table data).cols,
           (df_indexed data).map (fun r =>
             [String.mk (natToChars r.1), r.2.1, dateToCsv r.2.2])⟩
    ∧ ((df_indexed data).map (fun r =>
          [String.mk (natToChars r.1), r.2.1, dateToCsv r.2.2])).map (List.drop 1)
        = (df_table data).rows := by
  have hhotel : ∀ r ∈ df_indexed data, ',' ∉ r.2.1.data ∧ '\n' ∉ r.2.1.data := by
    intro r hr
    unfold df_indexed at hr
    obtain ⟨p, hp, rfl⟩ := List.mem_map.mp hr
    exact hsafe p.2 (List.snd_mem_of_mem_enum (List.mem_of_mem_filter hp))
  have hlines : ∀ l ∈ (df_indexed data).map csvLine, '\n' ∉ l := by
    intro l hl
    obtain ⟨r, hr, rfl⟩ := List.mem_map.mp hl
    exact csvLine_no_newline (hhotel r hr).2
  have hsplit : splitOnChar '\n' (df_to_csv_data data)
      = headerLine :: ((df_indexed data).map csvLine ++ [[]]) := by
    rw [df_to_csv_data,
      splitOnChar_append_sep _ _ _ (by decide : '\n' ∉ headerLine)]
    have hmm : (df_indexed data).map (fun r => csvLine r ++ ['\n'])
        = ((df_indexed data).map csvLine).map (fun l => l ++ ['\n']) := by
      rw [List.map_map]
      rfl
    rw [hmm, splitOnChar_flatten_lines _ _ hlines]
  have hfilter : (splitOnChar '\n' (df_to_csv_data data)).filter (fun l => l != [])
      = headerLine :: (df_indexed data).map csvLine := by
    rw [hsplit, List.filter_cons_of_pos (by decide), List.filter_append]
    have h1 : ((df_indexed data).map csvLine).filter (fun l => l != [])
        = (df_indexed data).map csvLine :=
      List.filter_eq_self.mpr (fun l hl => by
        obtain ⟨r, _, rfl⟩ := List.mem_map.mp hl
        simpa using csvLine_ne_nil r)
    rw [h1]
    simp
  have hrows : ((df_indexed data).map csvLine).map
      (fun l => (splitOnChar ',' l).map (fun cl => String.mk cl))
      = (df_indexed data).map (fun r =>
          [String.mk (natToChars r.1), r.2.1, dateToCsv r.2.2]) := by
    rw [List.map_map]
    refine List.map_congr_left (fun r hr => ?_)
    show ((splitOnChar ',' (csvLine r)).map (fun cl => String.mk cl)) = _
    rw [splitOnChar_csvLine r (hhotel r hr).1]
    rfl
  constructor
  · show read_csv_chars (df_to_csv_data data) = _
    unfold read_csv_chars
    rw [hfilter]
    show (let cols := (((splitOnChar ',' headerLine).map (fun c => String.mk c)).enum.map
            (fun p => if p.2 == "" then "Unnamed: " ++ toString p.1 else p.2));
          let rows := ((df_indexed data).map csvLine).map
            (fun l => (splitOnChar ',' l).map (fun cl => String.mk cl));
          if rows.all (fun r => r.length == cols.length) then Except.ok (⟨cols, rows⟩ : DataFrame)
          else .error "tokenizer error") = _
    rw [show (((splitOnChar ',' headerLine).map (fun c => String.mk c)).enum.map
          (fun p => if p.2 == "" then "Unnamed: " ++ toString p.1 else p.2))
        = ["Unnamed: 0", "hotel", "arrival_date"] from by decide]
    rw [hrows]
    have hall : ((df_indexed data).map (fun r =>
        [String.mk (natToChars r.1), r.2.1, dateToCsv r.2.2])).all
          (fun r => r.length == (["Unnamed: 0", "hotel", "arrival_date"]
            : List String).length) = true := by
      rw [List.all_eq_true]
      intro row hrow
      obtain ⟨r, _, rfl⟩ := List.mem_map.mp hrow
      rfl
    rw [if_pos hall]
    rfl
  · rw [List.map_map]
    show (df_indexed data).map (fun r => [r.2.1, dateToCsv r.2.2]) = _
    rw [df_indexed_proj]
    rfl

/-- Witness for C6 at a concrete two-row dataset. -/
theorem C6_roundtrip_with_index_witness :
    (∀ r ∈ dC5, csvSafe r.hotel)
    ∧ read_csv_chars (df_to_csv dC5).data =
        .ok ⟨"Unnamed: 0" :: (df_table dC5).cols,
             (df_indexed dC5).map (fun r =>
               [String.mk (natToChars r.1), r.2.1, dateToCsv r.2.2])⟩ :=
  ⟨by decide, (C6_roundtrip_with_index dC5 (by decide)).1⟩
